import Mathlib

set_option autoImplicit false

/-!
Verification of the real-time notification and presence core of a
Reddit-style backend (Rust/axum/Redis).  The Rust services are shallowly
embedded as pure Lean functions over explicit state records:

* `RedisState` models the shared Redis bus (`src/redis.rs`): TTL'd
  key/value entries, per-key lists (the offline notification queues),
  per-key sets (WebSocket connection tracking), a log of published
  pub/sub messages, and a `busOk` flag that makes every bus call fail
  with a Redis error, mirroring `redis::RedisError` propagation.
* `WsState` models `src/services/websocket_service.rs`: the
  process-local connection map plus the bus.
* `TypingState` models `src/services/typing_service.rs`: the
  `comment_typing_indicators` table, the `users` table rows the service
  joins against, and the typing broadcasts it publishes.
* `AppState` models `src/services/notification_service.rs`: the
  `notifications` and `user_preferences`/`users` tables, the bus, and
  the external email/SMS side effects.

Timestamps are naturals (seconds); Rust `Uuid` values are naturals and
are rendered with `toString` where the source formats them into Redis
key names.  Fallible Rust functions returning `Result<T, AppError>`
become functions into `Except AppError _`; `let _ = ...` error
swallowing in the source becomes an explicit recover helper.
-/

namespace RedditClone

/-- Rust `Uuid` values, abstracted to naturals. -/
abbrev Uuid := Nat

/-- error.rs `AppError`: the variants exercised by the notification core.
`Redis` stands for `AppError::Redis(redis::RedisError)`. -/
inductive AppError where
  | Database (msg : String)
  | Redis (msg : String)
  | BadRequest (msg : String)
  | NotFound (msg : String)
  deriving DecidableEq, Repr

/-- One Redis key/value entry written with `SET ... EX ttl`; `expiresAt` is
the absolute instant from which the key no longer exists. -/
structure KvEntry where
  key : String
  value : String
  expiresAt : Nat
  deriving DecidableEq, Repr

/-- redis.rs `RedisClient`, modelled as the state of the Redis server it
talks to.  `lists` holds each Redis list front-to-back, so the head is the
most recently `LPUSH`ed element (exactly what `LRANGE key 0 -1` returns
first).  `published` is the ordered log of `PUBLISH` calls.  When `busOk`
is false every command returns a Redis error, modelling an unreachable
bus. -/
structure RedisState where
  kv : List KvEntry
  lists : List (String × List String)
  listExp : List (String × Nat)
  sets : List (String × List String)
  setExp : List (String × Nat)
  published : List (String × String)
  busOk : Bool
  deriving DecidableEq, Repr

/-- A Redis bus with nothing stored and the server reachable. -/
def emptyRedis : RedisState :=
  ⟨[], [], [], [], [], [], true⟩

/-- `SET key value EX ttl` at instant `now`: any previous entry for the key
is replaced and the key expires at `now + ttl`. -/
def kvSet (s : RedisState) (key value : String) (ttl now : Nat) : RedisState :=
  { s with kv := ⟨key, value, now + ttl⟩ :: s.kv.filter (fun e => e.key != key) }

/-- `EXISTS key` at instant `now`: a key exists while `now` is strictly
before its expiry instant. -/
def kvExists (s : RedisState) (key : String) (now : Nat) : Bool :=
  s.kv.any (fun e => e.key == key && decide (now < e.expiresAt))

/-- The current (unexpired) content of a Redis list, front-to-back.  An
entry whose TTL has elapsed reads as absent, as in Redis. -/
def liveList (s : RedisState) (key : String) (now : Nat) : List String :=
  match s.lists.lookup key with
  | none => []
  | some items =>
    match s.listExp.lookup key with
    | none => items
    | some exp => if now < exp then items else []

/-- Replace the stored content of a Redis list. -/
def listSet (s : RedisState) (key : String) (items : List String) : RedisState :=
  { s with lists := (key, items) :: s.lists.filter (fun e => e.1 != key) }

/-- `EXPIRE key ttl` on a list, recording the new absolute expiry. -/
def listExpSet (s : RedisState) (key : String) (exp : Nat) : RedisState :=
  { s with listExp := (key, exp) :: s.listExp.filter (fun e => e.1 != key) }

/-- `DEL key` for a list key. -/
def listDel (s : RedisState) (key : String) : RedisState :=
  { s with lists := s.lists.filter (fun e => e.1 != key),
           listExp := s.listExp.filter (fun e => e.1 != key) }

/-- `SADD key member` (idempotent on the member). -/
def setAdd (s : RedisState) (key member : String) : RedisState :=
  let cur := (s.sets.lookup key).getD []
  let cur2 := if cur.contains member then cur else cur ++ [member]
  { s with sets := (key, cur2) :: s.sets.filter (fun e => e.1 != key) }

/-- `EXPIRE key ttl` on a set key. -/
def setExpSet (s : RedisState) (key : String) (exp : Nat) : RedisState :=
  { s with setExp := (key, exp) :: s.setExp.filter (fun e => e.1 != key) }

/-- redis.rs `publish` (redis.rs:96-100): `PUBLISH channel message`,
appended to the log of published messages. -/
def publish (s : RedisState) (channel message : String) :
    Except AppError (Unit × RedisState) :=
  if s.busOk then
    .ok ((), { s with published := s.published ++ [(channel, message)] })
  else
    .error (.Redis "publish failed")

/-- redis.rs `set_user_online` (redis.rs:170-176): `SET user_online:<id>
"online" EX 300`. -/
def set_user_online (s : RedisState) (user_id : String) (now : Nat) :
    Except AppError (Unit × RedisState) :=
  if s.busOk then
    .ok ((), kvSet s ("user_online:" ++ user_id) "online" 300 now)
  else
    .error (.Redis "set_ex failed")

/-- redis.rs `is_user_online` (redis.rs:178-184): a pure `EXISTS` check on
`user_online:<id>`; the store is not modified. -/
def is_user_online (s : RedisState) (user_id : String) (now : Nat) :
    Except AppError (Bool × RedisState) :=
  if s.busOk then
    .ok (kvExists s ("user_online:" ++ user_id) now, s)
  else
    .error (.Redis "exists failed")

/-- redis.rs `queue_notification` (redis.rs:187-194): `LPUSH
notification_queue:<id> payload` followed by `EXPIRE ... 86400`.  `LPUSH`
prepends, so the head of the stored list is the newest payload. -/
def queue_notification (s : RedisState) (user_id notification : String) (now : Nat) :
    Except AppError (Unit × RedisState) :=
  if s.busOk then
    let key := "notification_queue:" ++ user_id
    .ok ((), listExpSet (listSet s key (notification :: liveList s key now)) key (now + 86400))
  else
    .error (.Redis "lpush failed")

/-- redis.rs `get_queued_notifications` (redis.rs:196-203): `LRANGE key 0
-1` (the whole list, head first) followed by `DEL key`. -/
def get_queued_notifications (s : RedisState) (user_id : String) (now : Nat) :
    Except AppError (List String × RedisState) :=
  if s.busOk then
    let key := "notification_queue:" ++ user_id
    .ok (liveList s key now, listDel s key)
  else
    .error (.Redis "lrange failed")

/-- redis.rs `register_websocket_connection` (redis.rs:249-260): `SADD
ws_connections:<uid> <cid>` followed by `EXPIRE ... 3600`. -/
def register_websocket_connection (s : RedisState) (user_id connection_id : String)
    (now : Nat) : Except AppError (Unit × RedisState) :=
  if s.busOk then
    let key := "ws_connections:" ++ user_id
    .ok ((), setExpSet (setAdd s key connection_id) key (now + 3600))
  else
    .error (.Redis "sadd failed")

/-- Run a fallible bus call and keep the prior state on error: the shape of
a Rust `let _ = op.await;` call site. -/
def ignoreRedisErr (r : Except AppError (Unit × RedisState)) (s : RedisState) : RedisState :=
  match r with
  | .ok (_, s') => s'
  | .error _ => s

/-- The successor state of a `queue_notification` call, keeping the prior
state when the bus is down (used to chain a sequence of enqueues). -/
def queueStep (s : RedisState) (uid msg : String) (now : Nat) : RedisState :=
  match queue_notification s uid msg now with
  | .ok (_, r) => r
  | .error _ => s

/-- A sequence of `queue_notification` calls for `uid`, oldest payload
first, with no intervening drain. -/
def enqueueAll (r : RedisState) (uid : String) (msgs : List String) (now : Nat) : RedisState :=
  msgs.foldl (fun st m => queueStep st uid m now) r

/-- One entry of the process-local connection map of
websocket_service.rs: the per-user `broadcast::Sender`.  `alive` is
whether `tx.send` succeeds (some receiver still open); `inbox` is the
ordered list of messages the sender accepted. -/
structure Conn where
  alive : Bool
  inbox : List String
  deriving DecidableEq, Repr

/-- websocket_service.rs `WebSocketService`: the in-memory
`connections: HashMap<Uuid, broadcast::Sender<String>>` plus the Redis
bus it talks to. -/
structure WsState where
  connections : List (Uuid × Conn)
  redis : RedisState
  deriving DecidableEq, Repr

/-- Insert or replace the map entry for `k` (HashMap::insert). -/
def alistInsert (l : List (Uuid × Conn)) (k : Uuid) (v : Conn) : List (Uuid × Conn) :=
  (k, v) :: l.filter (fun e => e.1 != k)

/-- websocket_service.rs `send_notification_to_user`
(websocket_service.rs:244-261): try the registered broadcast sender
first; when no entry exists or the send fails, fall through to
`queue_notification` on the bus, whose error propagates via `?`. -/
def send_notification_to_user (s : WsState) (user_id : Uuid) (notification : String)
    (now : Nat) : (Except AppError Unit) × WsState :=
  match s.connections.lookup user_id with
  | some conn =>
    if conn.alive then
      let conn2 : Conn := { conn with inbox := conn.inbox ++ [notification] }
      (.ok (), { s with connections := alistInsert s.connections user_id conn2 })
    else
      match queue_notification s.redis (toString user_id) notification now with
      | .ok (_, r) => (.ok (), { s with redis := r })
      | .error e => (.error e, s)
  | none =>
    match queue_notification s.redis (toString user_id) notification now with
    | .ok (_, r) => (.ok (), { s with redis := r })
    | .error e => (.error e, s)

/-- A message written to the physical WebSocket by the session handler. -/
inductive ClientMsg where
  | connectedAck (connection_id : String)
  | text (payload : String)
  deriving DecidableEq, Repr

/-- The three steady-state tasks `handle_socket` spawns. -/
inductive LoopId where
  | pubsubTask
  | outgoingTask
  | incomingTask
  deriving DecidableEq, Repr

/-- An observable step of the connection session handler, in program
order: either a message written to the client socket or the start of one
of the three steady-state loops. -/
inductive SessionEvent where
  | toClient (m : ClientMsg)
  | loopStarted (l : LoopId)
  deriving DecidableEq, Repr

/-- Result of the sequential prefix of `handle_socket`: the ordered trace
of observable steps and the state when the three loops take over. -/
structure SessionStart where
  trace : List SessionEvent
  state : WsState
  deriving DecidableEq, Repr

/-- websocket_service.rs `handle_socket` (websocket_service.rs:41-154) up
to the point where the three steady-state tasks are spawned: register the
connection id and online key on the bus (errors ignored), insert the new
broadcast sender into the connection map, send the `connected`
acknowledgement (an early return when the socket write fails, `sockOk`),
drain the offline queue and forward each payload, then spawn the pub/sub
bridge, outgoing and incoming tasks in that order. -/
def handle_socket_prelude (s : WsState) (user_id : Uuid) (connection_id : String)
    (now : Nat) (sockOk : Bool) : SessionStart :=
  let r1 := ignoreRedisErr
    (register_websocket_connection s.redis (toString user_id) connection_id now) s.redis
  let r2 := ignoreRedisErr (set_user_online r1 (toString user_id) now) r1
  let conns := alistInsert s.connections user_id ⟨true, []⟩
  if sockOk then
    let drained := match get_queued_notifications r2 (toString user_id) now with
      | .ok (msgs, r3) => (msgs, r3)
      | .error _ => ([], r2)
    ⟨.toClient (.connectedAck connection_id)
        :: drained.1.map (fun m => .toClient (.text m))
        ++ [.loopStarted .pubsubTask, .loopStarted .outgoingTask, .loopStarted .incomingTask],
     ⟨conns, drained.2⟩⟩
  else
    ⟨[], ⟨conns, r2⟩⟩

/-- The payloads forwarded to the client socket in a trace, in order
(excluding the `connected` acknowledgement). -/
def clientTexts : List SessionEvent → List String
  | [] => []
  | .toClient (.text m) :: rest => m :: clientTexts rest
  | _ :: rest => clientTexts rest

/-- One row of the `comment_typing_indicators` table
(typing_service.rs).  `parent_comment_id` is `NULL` for top-level
typing; the SQL comparisons use `IS NOT DISTINCT FROM`, which is exactly
`Option` equality here. -/
structure TypingRow where
  user_id : Uuid
  post_id : Uuid
  parent_comment_id : Option Uuid
  started_typing_at : Nat
  last_activity_at : Nat
  deriving DecidableEq, Repr

/-- One element of the `typing_users` broadcast payload: the row joined
with the `users` table (typing_service.rs:100-108). -/
structure TypingUser where
  user_id : Uuid
  username : String
  avatar_url : Option String
  started_typing_at : Nat
  deriving DecidableEq, Repr

/-- The full-state typing broadcast published after every start/stop
(typing_service.rs `broadcast_typing_update`), with its resource-scoped
channel kept structurally: `post_typing:<post>` when
`parent_comment_id` is `none`, `comment_typing:<post>:<parent>`
otherwise. -/
structure TypingBroadcast where
  post_id : Uuid
  parent_comment_id : Option Uuid
  typing_users : List TypingUser
  deriving DecidableEq, Repr

/-- typing_service.rs `TypingService` state: the indicator table, the
`users` rows it joins against (id, username, avatar_url), the broadcasts
published so far, and bus reachability. -/
structure TypingState where
  rows : List TypingRow
  users : List (Uuid × String × Option String)
  published : List TypingBroadcast
  busOk : Bool
  deriving DecidableEq, Repr

/-- The exact (user, post, parent) key match used by the typing SQL:
`user_id = $1 AND post_id = $2 AND parent_comment_id IS NOT DISTINCT
FROM $3`. -/
def rowKeyEq (r : TypingRow) (user_id post_id : Uuid) (parent : Option Uuid) : Bool :=
  r.user_id == user_id && r.post_id == post_id && r.parent_comment_id == parent

/-- The `WHERE` clause of `get_typing_users` (typing_service.rs:89-91):
same post, parent exactly matching (`IS NOT DISTINCT FROM`), and
`last_activity_at > NOW() - INTERVAL 30 seconds`. -/
def typingQueryMatch (r : TypingRow) (post_id : Uuid) (parent : Option Uuid) (now : Nat) : Bool :=
  r.post_id == post_id && r.parent_comment_id == parent && decide (now < r.last_activity_at + 30)

/-- The `ORDER BY started_typing_at ASC` ordering on indicator rows. -/
def startedLE (a b : TypingRow) : Prop :=
  a.started_typing_at ≤ b.started_typing_at

instance : DecidableRel startedLE :=
  fun a b => inferInstanceAs (Decidable (a.started_typing_at ≤ b.started_typing_at))

instance : IsTotal TypingRow startedLE :=
  ⟨fun a b => Nat.le_total a.started_typing_at b.started_typing_at⟩

instance : IsTrans TypingRow startedLE :=
  ⟨fun _ _ _ hab hbc => Nat.le_trans hab hbc⟩

/-- The same ordering on the joined broadcast rows. -/
def startedUserLE (a b : TypingUser) : Prop :=
  a.started_typing_at ≤ b.started_typing_at

/-- typing_service.rs `get_typing_users` (typing_service.rs:79-109): rows
of the indicator table for the exact (post, parent) key with activity in
the last 30 seconds, inner-joined with `users`, ordered by
`started_typing_at` ascending. -/
def get_typing_users (s : TypingState) (post_id : Uuid) (parent : Option Uuid)
    (now : Nat) : List TypingUser :=
  ((s.rows.filter (fun r => typingQueryMatch r post_id parent now)).insertionSort
      startedLE).filterMap
    (fun r => (s.users.lookup r.user_id).map
      (fun ui => ⟨r.user_id, ui.1, ui.2, r.started_typing_at⟩))

/-- typing_service.rs `broadcast_typing_update`
(typing_service.rs:112-139): re-query `get_typing_users` for the exact
key and publish the full current list; the publish error propagates. -/
def broadcast_typing_update (s : TypingState) (post_id : Uuid) (parent : Option Uuid)
    (now : Nat) : Except AppError (Unit × TypingState) :=
  let tu := get_typing_users s post_id parent now
  if s.busOk then
    .ok ((), { s with published := s.published ++ [⟨post_id, parent, tu⟩] })
  else
    .error (.Redis "publish failed")

/-- typing_service.rs `start_typing` (typing_service.rs:20-53): `INSERT
... ON CONFLICT (user_id, post_id, parent_comment_id) DO UPDATE SET
last_activity_at = $6` (the upsert key of the schema's unique
constraint, per the spec's start-typing contract), then an unconditional
broadcast. -/
def start_typing (s : TypingState) (user_id post_id : Uuid) (parent : Option Uuid)
    (now : Nat) : Except AppError (Unit × TypingState) :=
  let rows1 :=
    if s.rows.any (fun r => rowKeyEq r user_id post_id parent) then
      s.rows.map (fun r =>
        if rowKeyEq r user_id post_id parent then { r with last_activity_at := now } else r)
    else
      s.rows ++ [⟨user_id, post_id, parent, now, now⟩]
  broadcast_typing_update { s with rows := rows1 } post_id parent now

/-- typing_service.rs `stop_typing` (typing_service.rs:56-76): `DELETE`
of the rows whose (user, post, parent) key matches exactly (`IS NOT
DISTINCT FROM` on the parent), then a broadcast regardless of whether a
row existed. -/
def stop_typing (s : TypingState) (user_id post_id : Uuid) (parent : Option Uuid)
    (now : Nat) : Except AppError (Unit × TypingState) :=
  let rows1 := s.rows.filter (fun r => !rowKeyEq r user_id post_id parent)
  broadcast_typing_update { s with rows := rows1 } post_id parent now

/-- typing_service.rs `update_typing_activity`
(typing_service.rs:152-173), the `typing_heartbeat` action: `UPDATE ...
SET last_activity_at = NOW()` on the exactly matching key only; no
insert, no broadcast, and success whether or not a row matched. -/
def update_typing_activity (s : TypingState) (user_id post_id : Uuid)
    (parent : Option Uuid) (now : Nat) : Except AppError (Unit × TypingState) :=
  .ok ((), { s with rows := s.rows.map (fun r =>
    if rowKeyEq r user_id post_id parent then { r with last_activity_at := now } else r) })

/-- models/notification.rs `NotificationType`. -/
inductive NotificationType where
  | CommentReply
  | PostReply
  | Mention
  | Upvote
  | Downvote
  | Follow
  | CommunityInvite
  | CommunityBan
  | PostRemoved
  | CommentRemoved
  | ModeratorInvite
  | AwardReceived
  | PostTrending
  | SystemAnnouncement
  deriving DecidableEq, Repr

/-- models/user.rs `UserPreferences`, as read by
`should_send_notification` (the `COALESCE` defaults are applied when the
row is materialised, so the fields here are plain booleans). -/
structure UserPreferences where
  comment_reply_notifications : Bool
  post_reply_notifications : Bool
  mention_notifications : Bool
  upvote_notifications : Bool
  community_notifications : Bool
  email_notifications : Bool
  push_notifications : Bool
  nsfw_content : Bool
  deriving DecidableEq, Repr

/-- models/notification.rs `Notification`: one row of the
`notifications` table. -/
structure Notification where
  id : Uuid
  recipient_id : Uuid
  sender_id : Option Uuid
  notification_type : NotificationType
  title : String
  content : Option String
  is_read : Bool
  post_id : Option Uuid
  comment_id : Option Uuid
  community_id : Option Uuid
  created_at : Nat
  deriving DecidableEq, Repr

/-- The columns of `users` read by the notification service
(username, email, phone). -/
structure UserRow where
  username : String
  email : Option String
  phone : Option String
  deriving DecidableEq, Repr

/-- notification_service.rs `NotificationService` state: the
`notifications` and `user_preferences`/`users` tables, the Redis bus,
and the log of outbound email/SMS sends (address, notification
title). -/
structure AppState where
  redis : RedisState
  notifications : List Notification
  preferences : List (Uuid × UserPreferences)
  users : List (Uuid × UserRow)
  emails_sent : List (String × String)
  sms_sent : List (String × String)
  deriving DecidableEq, Repr

/-- The per-type preference switch of `should_send_notification`
(notification_service.rs:315-324). -/
def prefEnables (p : UserPreferences) (t : NotificationType) : Bool :=
  match t with
  | .CommentReply => p.comment_reply_notifications
  | .PostReply => p.post_reply_notifications
  | .Mention => p.mention_notifications
  | .Upvote => p.upvote_notifications
  | .Downvote => p.upvote_notifications
  | .CommunityInvite => p.community_notifications
  | .CommunityBan => p.community_notifications
  | _ => true

/-- notification_service.rs `should_send_notification`
(notification_service.rs:268-327): a user with no preferences row
defaults to allowing every type. -/
def should_send_notification (s : AppState) (user_id : Uuid) (t : NotificationType) : Bool :=
  match s.preferences.lookup user_id with
  | none => true
  | some p => prefEnables p t

/-- The serialized real-time payload of a notification; its JSON body is
abstracted, only the channel it is published on matters to the claims. -/
def notificationPayload (n : Notification) : String :=
  "notification " ++ toString n.id

/-- The serialized `notification_count` payload. -/
def countPayload (c : Nat) : String :=
  "notification_count " ++ toString c

/-- notification_service.rs `get_unread_count`
(notification_service.rs:242-251): unread rows for the recipient. -/
def get_unread_count (s : AppState) (user_id : Uuid) : Nat :=
  (s.notifications.filter (fun n => n.recipient_id == user_id && !n.is_read)).length

/-- notification_service.rs `update_notification_count`
(notification_service.rs:357-371): publish the current unread count to
the user's channel; the publish error propagates. -/
def update_notification_count (s : AppState) (user_id : Uuid) :
    (Except AppError Unit) × AppState :=
  match publish s.redis ("user_notifications:" ++ toString user_id)
      (countPayload (get_unread_count s user_id)) with
  | .ok (_, r) => (.ok (), { s with redis := r })
  | .error e => (.error e, s)

/-- notification_service.rs `send_realtime_notification`
(notification_service.rs:330-354): publish the payload to
`user_notifications:<recipient>`, then publish the unread count; each
`?` propagates a bus error. -/
def send_realtime_notification (s : AppState) (n : Notification) :
    (Except AppError Unit) × AppState :=
  match publish s.redis ("user_notifications:" ++ toString n.recipient_id)
      (notificationPayload n) with
  | .error e => (.error e, s)
  | .ok (_, r) => update_notification_count { s with redis := r } n.recipient_id

/-- notification_service.rs `send_external_notifications`
(notification_service.rs:374-455): look up preferences (skip when
absent) and the user row, send an email when enabled, and an SMS for the
critical types when push is enabled; send errors are ignored with
`let _ = ...`. -/
def send_external_notifications (s : AppState) (n : Notification) : AppState :=
  match s.preferences.lookup n.recipient_id with
  | none => s
  | some prefs =>
    match s.users.lookup n.recipient_id with
    | none => s
    | some u =>
      let s1 :=
        if prefs.email_notifications then
          match u.email with
          | some e => { s with emails_sent := s.emails_sent ++ [(e, n.title)] }
          | none => s
        else s
      if prefs.push_notifications
          && (n.notification_type == .CommunityBan || n.notification_type == .PostRemoved) then
        match u.phone with
        | some ph => { s1 with sms_sent := s1.sms_sent ++ [(ph, n.title)] }
        | none => s1
      else s1

/-- notification_service.rs `create_notification`
(notification_service.rs:38-105): reject when the recipient's
preferences disable the type, then reject a self-notification, then
insert the row, send the real-time fan-out (bus errors propagate via
`?`), then the external email/SMS sends.  The returned state reflects
every write performed before an error. -/
def create_notification (s : AppState) (recipient_id : Uuid) (sender_id : Option Uuid)
    (notification_type : NotificationType) (title : String) (content : Option String)
    (post_id comment_id community_id : Option Uuid) (fresh_id now : Nat) :
    (Except AppError Notification) × AppState :=
  if should_send_notification s recipient_id notification_type = false then
    (.error (.BadRequest "User has disabled this notification type"), s)
  else if sender_id.any (fun sid => sid == recipient_id) then
    (.error (.BadRequest "Cannot send notification to self"), s)
  else
    let n : Notification :=
      ⟨fresh_id, recipient_id, sender_id, notification_type, title, content,
        false, post_id, comment_id, community_id, now⟩
    let s1 := { s with notifications := s.notifications ++ [n] }
    match send_realtime_notification s1 n with
    | (.error e, s2) => (.error e, s2)
    | (.ok _, s2) => (.ok n, send_external_notifications s2 n)

/-! ### Helper lemmas about the Redis model -/

theorem lookup_filter_self {β : Type} (l : List (String × β)) (k : String) :
    (l.filter (fun e => e.1 != k)).lookup k = none := by
  induction l with
  | nil => rfl
  | cons e rest ih =>
    by_cases h : e.1 = k
    · simp [List.filter_cons, h, ih]
    · simp only [List.filter_cons]
      have hb : (e.1 != k) = true := by simpa using h
      rw [hb]
      simp only [if_true]
      have : (k == e.1) = false := by
        simpa using fun hk => h hk.symm
      simp [List.lookup, this, ih]

theorem any_filter_key_false (l : List KvEntry) (k : String) (p : KvEntry → Bool) :
    (l.filter (fun e => e.key != k)).any (fun e => e.key == k && p e) = false := by
  induction l with
  | nil => rfl
  | cons e rest ih =>
    by_cases h : e.key = k
    · simp [List.filter_cons, h, ih]
    · have hb : (e.key != k) = true := by simpa using h
      have hbeq : (e.key == k) = false := by simpa using h
      simp [List.filter_cons, hb, List.any_cons, hbeq, ih]

theorem kvExists_kvSet (s : RedisState) (k v : String) (ttl now t : Nat) :
    kvExists (kvSet s k v ttl now) k t = decide (t < now + ttl) := by
  unfold kvExists kvSet
  simp [List.any_cons, any_filter_key_false]
  intro x _ hne hk _
  exact absurd hk hne

theorem liveList_kvSet (s : RedisState) (k v : String) (ttl now : Nat) (key : String)
    (t : Nat) : liveList (kvSet s k v ttl now) key t = liveList s key t := rfl

theorem liveList_setAdd (s : RedisState) (k m : String) (key : String) (t : Nat) :
    liveList (setAdd s k m) key t = liveList s key t := rfl

theorem liveList_setExpSet (s : RedisState) (k : String) (e : Nat) (key : String)
    (t : Nat) : liveList (setExpSet s k e) key t = liveList s key t := rfl

theorem liveList_listDel_self (s : RedisState) (key : String) (t : Nat) :
    liveList (listDel s key) key t = [] := by
  simp [liveList, listDel, lookup_filter_self]

theorem liveList_queueStep (s : RedisState) (uid m : String) (now : Nat)
    (h : s.busOk = true) :
    liveList (queueStep s uid m now) ("notification_queue:" ++ uid) now
        = m :: liveList s ("notification_queue:" ++ uid) now := by
  unfold queueStep queue_notification
  simp only [h, if_true]
  simp [liveList, listExpSet, listSet, List.lookup]

theorem busOk_queueStep (s : RedisState) (uid m : String) (now : Nat) :
    (queueStep s uid m now).busOk = s.busOk := by
  unfold queueStep queue_notification
  by_cases h : s.busOk <;> simp [h, listExpSet, listSet]

theorem enqueueAll_liveList (uid : String) (L : List String) (r : RedisState) (now : Nat)
    (h : r.busOk = true) :
    liveList (enqueueAll r uid L now) ("notification_queue:" ++ uid) now
        = L.reverse ++ liveList r ("notification_queue:" ++ uid) now
      ∧ (enqueueAll r uid L now).busOk = true := by
  induction L generalizing r with
  | nil => simpa [enqueueAll]
  | cons m rest ih =>
    have hstep : (queueStep r uid m now).busOk = true := by
      rw [busOk_queueStep]; exact h
    have hr := ih (queueStep r uid m now) hstep
    have hcons : enqueueAll r uid (m :: rest) now
        = enqueueAll (queueStep r uid m now) uid rest now := rfl
    rw [hcons]
    refine ⟨?_, hr.2⟩
    rw [hr.1, liveList_queueStep r uid m now h]
    simp

/-! ### C8: presence TTL semantics -/

/-- C8: `mark_online` writes `user_online:<id>` with a TTL of exactly
300 seconds, and `is_online` is a pure key-existence check that does not
modify the store, so the key reads online exactly while fewer than 300
seconds have passed since the last refresh. -/
theorem C8_presence_ttl (s : RedisState) (user_id : String) (now t : Nat)
    (h : s.busOk = true) :
    ∃ s1, set_user_online s user_id now = .ok ((), s1)
      ∧ is_user_online s1 user_id t = .ok (decide (t < now + 300), s1)
      ∧ ∀ (w : RedisState) (u2 : String) (t2 : Nat), w.busOk = true →
          is_user_online w u2 t2 = .ok (kvExists w ("user_online:" ++ u2) t2, w) := by
  refine ⟨kvSet s ("user_online:" ++ user_id) "online" 300 now, ?_, ?_, ?_⟩
  · simp [set_user_online, h]
  · have hb : (kvSet s ("user_online:" ++ user_id) "online" 300 now).busOk = true := h
    simp [is_user_online, hb, kvExists_kvSet]
  · intro w u2 t2 hw
    simp [is_user_online, hw]

/-- Witness for C8 at a concrete store and times. -/
theorem C8_presence_ttl_witness :
    ∃ s1, set_user_online emptyRedis "7" 0 = .ok ((), s1)
      ∧ is_user_online s1 "7" 400 = .ok (decide (400 < 0 + 300), s1)
      ∧ ∀ (w : RedisState) (u2 : String) (t2 : Nat), w.busOk = true →
          is_user_online w u2 t2 = .ok (kvExists w ("user_online:" ++ u2) t2, w) :=
  C8_presence_ttl emptyRedis "7" 0 400 rfl

/-! ### C6: queue drain exhaustion -/

/-- C6: draining the offline queue atomically reads the whole live list
and clears it, so a second drain with no intervening enqueue returns the
empty sequence. -/
theorem C6_drain_exhaustion (s : RedisState) (user_id : String) (now now2 : Nat)
    (h : s.busOk = true) :
    ∃ s1, get_queued_notifications s user_id now
        = .ok (liveList s ("notification_queue:" ++ user_id) now, s1)
      ∧ get_queued_notifications s1 user_id now2
        = .ok ([], listDel s1 ("notification_queue:" ++ user_id)) := by
  refine ⟨listDel s ("notification_queue:" ++ user_id), ?_, ?_⟩
  · simp [get_queued_notifications, h]
  · have hb : (listDel s ("notification_queue:" ++ user_id)).busOk = true := h
    simp [get_queued_notifications, hb, liveList_listDel_self]

/-- Witness for C6 on a store holding two queued payloads. -/
theorem C6_drain_exhaustion_witness :
    ∃ s1, get_queued_notifications (queueStep (queueStep emptyRedis "7" "a" 0) "7" "b" 0) "7" 5
        = .ok (liveList (queueStep (queueStep emptyRedis "7" "a" 0) "7" "b" 0)
            ("notification_queue:" ++ "7") 5, s1)
      ∧ get_queued_notifications s1 "7" 6
        = .ok ([], listDel s1 ("notification_queue:" ++ "7")) :=
  C6_drain_exhaustion (queueStep (queueStep emptyRedis "7" "a" 0) "7" "b" 0) "7" 5 6 (by decide)

/-! ### C2: offline queue visit order -/

/-- C2 counterexample: enqueueing "a" then "b" and draining returns
["b", "a"] — the reverse of enqueue order, because `queue_notification`
uses `LPUSH` and `get_queued_notifications` reads `LRANGE 0 -1`
head-first.  The claimed FIFO order ["a", "b"] is not what a drain
returns. -/
theorem C2_fifo_counterexample :
    (get_queued_notifications (queueStep (queueStep emptyRedis "7" "a" 0) "7" "b" 0)
        "7" 0).toOption.map Prod.fst = some ["b", "a"]
      ∧ ["b", "a"] ≠ ["a", "b"] := by
  constructor
  · rfl
  · decide

theorem clientTexts_append_texts (xs : List String) (rest : List SessionEvent) :
    clientTexts (xs.map (fun m => SessionEvent.toClient (.text m)) ++ rest)
      = xs ++ clientTexts rest := by
  induction xs with
  | nil => rfl
  | cons a as ih => simp [clientTexts, ih]

/-- The state `handle_socket_prelude` reaches on the Redis side before
the loops take over, when the bus is reachable. -/
def preludeRedis (r : RedisState) (u2 : Uuid) (cid : String) (n2 : Nat) : RedisState :=
  listDel (kvSet (setExpSet (setAdd r ("ws_connections:" ++ toString u2) cid)
      ("ws_connections:" ++ toString u2) (n2 + 3600)) ("user_online:" ++ toString u2)
      "online" 300 n2) ("notification_queue:" ++ toString u2)

theorem handle_socket_prelude_busOk (w : WsState) (u2 : Uuid) (cid : String) (n2 : Nat)
    (hw : w.redis.busOk = true) :
    handle_socket_prelude w u2 cid n2 true
      = ⟨.toClient (.connectedAck cid)
          :: (liveList w.redis ("notification_queue:" ++ toString u2) n2).map
              (fun m => .toClient (.text m))
          ++ [.loopStarted .pubsubTask, .loopStarted .outgoingTask,
              .loopStarted .incomingTask],
         ⟨alistInsert w.connections u2 ⟨true, []⟩, preludeRedis w.redis u2 cid n2⟩⟩ := by
  have h1 : (register_websocket_connection w.redis (toString u2) cid n2)
      = .ok ((), setExpSet (setAdd w.redis ("ws_connections:" ++ toString u2) cid)
          ("ws_connections:" ++ toString u2) (n2 + 3600)) := by
    simp [register_websocket_connection, hw]
  have hw1 : (setExpSet (setAdd w.redis ("ws_connections:" ++ toString u2) cid)
      ("ws_connections:" ++ toString u2) (n2 + 3600)).busOk = true := hw
  have h2 : set_user_online (setExpSet (setAdd w.redis ("ws_connections:" ++ toString u2) cid)
        ("ws_connections:" ++ toString u2) (n2 + 3600)) (toString u2) n2
      = .ok ((), kvSet (setExpSet (setAdd w.redis ("ws_connections:" ++ toString u2) cid)
          ("ws_connections:" ++ toString u2) (n2 + 3600)) ("user_online:" ++ toString u2)
          "online" 300 n2) := by
    simp [set_user_online, hw1]
  have hw2 : (kvSet (setExpSet (setAdd w.redis ("ws_connections:" ++ toString u2) cid)
      ("ws_connections:" ++ toString u2) (n2 + 3600)) ("user_online:" ++ toString u2)
      "online" 300 n2).busOk = true := hw
  have h3 : get_queued_notifications (kvSet (setExpSet
        (setAdd w.redis ("ws_connections:" ++ toString u2) cid)
        ("ws_connections:" ++ toString u2) (n2 + 3600)) ("user_online:" ++ toString u2)
        "online" 300 n2) (toString u2) n2
      = .ok (liveList w.redis ("notification_queue:" ++ toString u2) n2,
          preludeRedis w.redis u2 cid n2) := by
    simp only [get_queued_notifications, hw2, if_true, preludeRedis]
    rfl
  unfold handle_socket_prelude
  rw [h1]
  simp only [ignoreRedisErr]
  rw [h2]
  simp only [ignoreRedisErr, if_true]
  rw [h3]

/-- C2 as amended: with no intervening drain, a drain returns the
queued payloads in reverse enqueue order (newest first, on top of
whatever was already queued), and a reconnecting client is forwarded
exactly the drained sequence in that (reversed) order. -/
theorem C2_drain_reverse_order (r : RedisState) (uid : String) (L : List String) (now : Nat)
    (h : r.busOk = true) :
    (get_queued_notifications (enqueueAll r uid L now) uid now).toOption.map Prod.fst
        = some (L.reverse ++ liveList r ("notification_queue:" ++ uid) now)
      ∧ ∀ (w : WsState) (u2 : Uuid) (cid : String) (n2 : Nat), w.redis.busOk = true →
          clientTexts (handle_socket_prelude w u2 cid n2 true).trace
            = liveList w.redis ("notification_queue:" ++ toString u2) n2 := by
  constructor
  · have hq := enqueueAll_liveList uid L r now h
    have hgq : get_queued_notifications (enqueueAll r uid L now) uid now
        = .ok (liveList (enqueueAll r uid L now) ("notification_queue:" ++ uid) now,
            listDel (enqueueAll r uid L now) ("notification_queue:" ++ uid)) := by
      simp [get_queued_notifications, hq.2]
    rw [hgq, hq.1]
    rfl
  · intro w u2 cid n2 hw
    rw [handle_socket_prelude_busOk w u2 cid n2 hw]
    simp [clientTexts, clientTexts_append_texts]

/-- Witness for C2's amended statement at a two-element enqueue. -/
theorem C2_drain_reverse_order_witness :
    (get_queued_notifications (enqueueAll emptyRedis "7" ["a", "b"] 0) "7" 0).toOption.map
        Prod.fst = some (["a", "b"].reverse ++ liveList emptyRedis ("notification_queue:" ++ "7") 0)
      ∧ ∀ (w : WsState) (u2 : Uuid) (cid : String) (n2 : Nat), w.redis.busOk = true →
          clientTexts (handle_socket_prelude w u2 cid n2 true).trace
            = liveList w.redis ("notification_queue:" ++ toString u2) n2 :=
  C2_drain_reverse_order emptyRedis "7" ["a", "b"] 0 rfl

/-! ### C7: session start ordering -/

theorem toClient_before_loops (P L : List SessionEvent)
    (hP : ∀ e ∈ P, ∃ m, e = SessionEvent.toClient m)
    (hL : ∀ e ∈ L, ∃ l, e = SessionEvent.loopStarted l) :
    ∀ (i j : Nat) (e : ClientMsg) (l : LoopId),
      (P ++ L)[i]? = some (.toClient e) → (P ++ L)[j]? = some (.loopStarted l) → i < j := by
  intro i j e l hi hj
  have hiP : i < P.length := by
    by_contra hge
    push_neg at hge
    rw [List.getElem?_append_right hge] at hi
    have hmem : SessionEvent.toClient e ∈ L := by
      rcases List.getElem?_eq_some.mp hi with ⟨hlt, hEq⟩
      exact hEq ▸ List.getElem_mem hlt
    rcases hL _ hmem with ⟨l2, hl2⟩
    exact SessionEvent.noConfusion hl2
  have hjP : P.length ≤ j := by
    by_contra hlt
    push_neg at hlt
    rw [List.getElem?_append_left hlt] at hj
    have hmem : SessionEvent.loopStarted l ∈ P := by
      rcases List.getElem?_eq_some.mp hj with ⟨hl2, hEq⟩
      exact hEq ▸ List.getElem_mem hl2
    rcases hP _ hmem with ⟨m2, hm2⟩
    exact SessionEvent.noConfusion hm2
  exact Nat.lt_of_lt_of_le hiP hjP

/-- C7: with a live socket and a reachable bus, the session handler
first writes the `connected` acknowledgement, then forwards every
drained offline notification, and only then start the three
steady-state loops: every message written to the client occupies a
strictly earlier trace position than every loop start. -/
theorem C7_ack_then_queue_then_loops (s : WsState) (user_id : Uuid)
    (connection_id : String) (now : Nat) (h : s.redis.busOk = true) :
    (handle_socket_prelude s user_id connection_id now true).trace
        = .toClient (.connectedAck connection_id)
            :: (liveList s.redis ("notification_queue:" ++ toString user_id) now).map
                (fun m => .toClient (.text m))
            ++ [.loopStarted .pubsubTask, .loopStarted .outgoingTask,
                .loopStarted .incomingTask]
      ∧ (handle_socket_prelude s user_id connection_id now true).trace[0]?
          = some (.toClient (.connectedAck connection_id))
      ∧ ∀ (i j : Nat) (e : ClientMsg) (l : LoopId),
          (handle_socket_prelude s user_id connection_id now true).trace[i]?
              = some (.toClient e) →
          (handle_socket_prelude s user_id connection_id now true).trace[j]?
              = some (.loopStarted l) →
          i < j := by
  rw [handle_socket_prelude_busOk s user_id connection_id now h]
  refine ⟨rfl, by simp, ?_⟩
  have hshape : SessionEvent.toClient (.connectedAck connection_id)
        :: (liveList s.redis ("notification_queue:" ++ toString user_id) now).map
            (fun m => SessionEvent.toClient (.text m))
        ++ [SessionEvent.loopStarted .pubsubTask, SessionEvent.loopStarted .outgoingTask,
            SessionEvent.loopStarted .incomingTask]
      = (SessionEvent.toClient (.connectedAck connection_id)
          :: (liveList s.redis ("notification_queue:" ++ toString user_id) now).map
              (fun m => SessionEvent.toClient (.text m)))
        ++ [SessionEvent.loopStarted .pubsubTask, SessionEvent.loopStarted .outgoingTask,
            SessionEvent.loopStarted .incomingTask] := by
    simp
  rw [hshape]
  apply toClient_before_loops
  · intro e he
    rcases List.mem_cons.mp he with hEq | hmap
    · exact ⟨.connectedAck connection_id, hEq⟩
    · rcases List.mem_map.mp hmap with ⟨m, _, hEq⟩
      exact ⟨.text m, hEq.symm⟩
  · intro e he
    rcases List.mem_cons.mp he with hEq | he2
    · exact ⟨.pubsubTask, hEq⟩
    · rcases List.mem_cons.mp he2 with hEq | he3
      · exact ⟨.outgoingTask, hEq⟩
      · rcases List.mem_cons.mp he3 with hEq | he4
        · exact ⟨.incomingTask, hEq⟩
        · exact absurd he4 (List.not_mem_nil e)

/-- Witness for C7 at a concrete state holding one queued payload. -/
theorem C7_ack_then_queue_then_loops_witness :
    (handle_socket_prelude ⟨[], queueStep emptyRedis "7" "x" 0⟩ 7 "c1" 0 true).trace
        = .toClient (.connectedAck "c1")
            :: (liveList (queueStep emptyRedis "7" "x" 0)
                ("notification_queue:" ++ toString (7 : Uuid)) 0).map
                (fun m => .toClient (.text m))
            ++ [.loopStarted .pubsubTask, .loopStarted .outgoingTask,
                .loopStarted .incomingTask]
      ∧ (handle_socket_prelude ⟨[], queueStep emptyRedis "7" "x" 0⟩ 7 "c1" 0 true).trace[0]?
          = some (.toClient (.connectedAck "c1"))
      ∧ ∀ (i j : Nat) (e : ClientMsg) (l : LoopId),
          (handle_socket_prelude ⟨[], queueStep emptyRedis "7" "x" 0⟩ 7 "c1" 0 true).trace[i]?
              = some (.toClient e) →
          (handle_socket_prelude ⟨[], queueStep emptyRedis "7" "x" 0⟩ 7 "c1" 0 true).trace[j]?
              = some (.loopStarted l) →
          i < j :=
  C7_ack_then_queue_then_loops ⟨[], queueStep emptyRedis "7" "x" 0⟩ 7 "c1" 0 (by decide)

/-! ### C1: delivery with no live connection -/

theorem published_queueStep (s : RedisState) (uid m : String) (now : Nat) :
    (queueStep s uid m now).published = s.published := by
  unfold queueStep queue_notification
  by_cases h : s.busOk <;> simp [h, listExpSet, listSet]

/-- C1 counterexample: with no registered connection for user 7,
`send_notification_to_user` enqueues the payload onto
`notification_queue:7` but publishes nothing at all to the bus — in
particular nothing to `user_notifications:7` — refuting the claimed
dual write (publish and enqueue) on the no-connection path. -/
theorem C1_no_publish_counterexample :
    (send_notification_to_user ⟨[], emptyRedis⟩ 7 "x" 0).2.redis.published = []
      ∧ liveList (send_notification_to_user ⟨[], emptyRedis⟩ 7 "x" 0).2.redis
          ("notification_queue:" ++ toString (7 : Uuid)) 0 = ["x"]
      ∧ (send_notification_to_user ⟨[], emptyRedis⟩ 7 "x" 0).1 = .ok () := by
  refine ⟨rfl, ?_, rfl⟩
  rfl

/-- C1 as amended: on the no-live-connection path (no registry entry, or
a registered sender whose send fails), `deliver` only enqueues the
payload onto `notification_queue:<recipient>`; it publishes nothing to
the bus — the `user_notifications:<recipient>` publish happens
separately, in `send_realtime_notification`, regardless of connection
state. -/
theorem C1_offline_path_enqueues_only (s : WsState) (user_id : Uuid) (payload : String)
    (now : Nat) (hconn : (s.connections.lookup user_id).all (fun c => !c.alive) = true)
    (hbus : s.redis.busOk = true) :
    ∃ r, send_notification_to_user s user_id payload now = (.ok (), r)
      ∧ r.redis.published = s.redis.published
      ∧ liveList r.redis ("notification_queue:" ++ toString user_id) now
          = payload :: liveList s.redis ("notification_queue:" ++ toString user_id) now
      ∧ r.connections = s.connections := by
  have hq : queue_notification s.redis (toString user_id) payload now
      = .ok ((), queueStep s.redis (toString user_id) payload now) := by
    unfold queueStep queue_notification
    simp [hbus]
  cases hol : s.connections.lookup user_id with
  | none =>
    refine ⟨⟨s.connections, queueStep s.redis (toString user_id) payload now⟩, ?_, ?_, ?_, rfl⟩
    · simp [send_notification_to_user, hol, hq]
    · exact published_queueStep s.redis (toString user_id) payload now
    · exact liveList_queueStep s.redis (toString user_id) payload now hbus
  | some conn =>
    have hal : conn.alive = false := by
      have := hconn
      rw [hol] at this
      simpa using this
    refine ⟨⟨s.connections, queueStep s.redis (toString user_id) payload now⟩, ?_, ?_, ?_, rfl⟩
    · simp [send_notification_to_user, hol, hal, hq]
    · exact published_queueStep s.redis (toString user_id) payload now
    · exact liveList_queueStep s.redis (toString user_id) payload now hbus

/-- Witness for C1's amended statement: no registered connection at all. -/
theorem C1_offline_path_enqueues_only_witness :
    ∃ r, send_notification_to_user ⟨[], emptyRedis⟩ 9 "y" 3 = (.ok (), r)
      ∧ r.redis.published = RedisState.published emptyRedis
      ∧ liveList r.redis ("notification_queue:" ++ toString (9 : Uuid)) 3
          = "y" :: liveList emptyRedis ("notification_queue:" ++ toString (9 : Uuid)) 3
      ∧ r.connections = [] :=
  C1_offline_path_enqueues_only ⟨[], emptyRedis⟩ 9 "y" 3 (by decide) (by decide)

/-! ### C3: bus failure propagation on the notification path -/

/-- A Redis bus that refuses every command. -/
def downBus : RedisState :=
  ⟨[], [], [], [], [], [], false⟩

/-- C3 counterexample: with the bus unreachable, a `create_notification`
call that passes the preference and self checks returns a Redis error —
the publish failure inside `send_realtime_notification` propagates
through `?` instead of being swallowed, so the triggering operation does
fail. -/
theorem C3_swallow_counterexample :
    (create_notification ⟨downBus, [], [], [], [], []⟩ 1 (some 2) .Mention "t" none
        none none none 0 0).1 = .error (.Redis "publish failed") := by
  rfl

/-- C3 as amended: a bus publish error propagates out of
`create_notification` (and a queue error out of
`send_notification_to_user`) as an `AppError::Redis`; fan-out failure is
swallowed only at call sites that discard the returned `Result` (such as
`process_mentions` and the WebSocket inbound dispatch), not inside the
delivery path itself. -/
theorem C3_bus_errors_propagate (s : AppState) (recipient : Uuid) (sender : Option Uuid)
    (t : NotificationType) (title : String) (content : Option String)
    (post_id comment_id community_id : Option Uuid) (fresh_id now : Nat)
    (hbus : s.redis.busOk = false)
    (hpref : should_send_notification s recipient t = true)
    (hself : sender.any (fun sid => sid == recipient) = false) :
    (create_notification s recipient sender t title content post_id comment_id
        community_id fresh_id now).1 = .error (.Redis "publish failed")
      ∧ ∀ (w : WsState) (uid : Uuid) (payload : String) (n2 : Nat),
          w.redis.busOk = false → w.connections.lookup uid = none →
          (send_notification_to_user w uid payload n2).1 = .error (.Redis "lpush failed") := by
  constructor
  · simp [create_notification, hpref, hself, send_realtime_notification, publish, hbus]
  · intro w uid payload n2 hwb hol
    simp [send_notification_to_user, hol, queue_notification, hwb]

/-- Witness for C3's amended statement at a concrete state and call. -/
theorem C3_bus_errors_propagate_witness :
    (create_notification ⟨downBus, [], [], [], [], []⟩ 1 (some 2) .Upvote "t" none
        none none none 0 0).1 = .error (.Redis "publish failed")
      ∧ ∀ (w : WsState) (uid : Uuid) (payload : String) (n2 : Nat),
          w.redis.busOk = false → w.connections.lookup uid = none →
          (send_notification_to_user w uid payload n2).1 = .error (.Redis "lpush failed") :=
  C3_bus_errors_propagate ⟨downBus, [], [], [], [], []⟩ 1 (some 2) .Upvote "t" none
    none none none 0 0 rfl rfl rfl

/-! ### C9: rejection before any write -/

/-- C9: when the recipient's stored preferences disable the type, or the
sender equals the recipient, `create_notification` returns a BadRequest
error and the state is exactly the input state: no row inserted, nothing
published, no email or SMS sent. -/
theorem C9_rejects_before_any_write (s : AppState) (recipient : Uuid) (sender : Option Uuid)
    (t : NotificationType) (title : String) (content : Option String)
    (post_id comment_id community_id : Option Uuid) (fresh_id now : Nat)
    (h : should_send_notification s recipient t = false ∨ sender = some recipient) :
    (create_notification s recipient sender t title content post_id comment_id
        community_id fresh_id now).2 = s
      ∧ ∃ msg, (create_notification s recipient sender t title content post_id comment_id
          community_id fresh_id now).1 = .error (.BadRequest msg) := by
  by_cases hp : should_send_notification s recipient t = false
  · exact ⟨by simp [create_notification, hp],
      ⟨"User has disabled this notification type", by simp [create_notification, hp]⟩⟩
  · have hself : sender = some recipient := by
      rcases h with hpref | hself
      · exact absurd hpref hp
      · exact hself
    have hp2 : should_send_notification s recipient t = true := by
      cases hsd : should_send_notification s recipient t
      · exact absurd hsd hp
      · rfl
    have hany : sender.any (fun sid => sid == recipient) = true := by
      subst hself
      simp
    exact ⟨by simp [create_notification, hp2, hany],
      ⟨"Cannot send notification to self", by simp [create_notification, hp2, hany]⟩⟩

/-- Witness for C9: a recipient whose preferences disable comment-reply
notifications, and separately a self-notification. -/
theorem C9_rejects_before_any_write_witness :
    (create_notification ⟨emptyRedis, [],
        [(1, ⟨false, true, true, true, true, false, false, false⟩)], [], [], []⟩
        1 (some 2) .CommentReply "t" none none none none 0 0).2
      = ⟨emptyRedis, [], [(1, ⟨false, true, true, true, true, false, false, false⟩)], [], [], []⟩
      ∧ ∃ msg, (create_notification ⟨emptyRedis, [],
          [(1, ⟨false, true, true, true, true, false, false, false⟩)], [], [], []⟩
          1 (some 2) .CommentReply "t" none none none none 0 0).1
        = .error (.BadRequest msg) :=
  C9_rejects_before_any_write ⟨emptyRedis, [],
    [(1, ⟨false, true, true, true, true, false, false, false⟩)], [], [], []⟩
    1 (some 2) .CommentReply "t" none none none none 0 0 (Or.inl (by decide))

/-! ### Helper lemmas about the typing register -/

theorem rowKeyEq_iff (r : TypingRow) (u p : Uuid) (k : Option Uuid) :
    rowKeyEq r u p k = true ↔ r.user_id = u ∧ r.post_id = p ∧ r.parent_comment_id = k := by
  simp [rowKeyEq, Bool.and_eq_true, and_assoc]

theorem broadcast_typing_update_ok (s : TypingState) (p : Uuid) (k : Option Uuid) (n : Nat)
    (h : s.busOk = true) :
    broadcast_typing_update s p k n
      = .ok ((), { s with published := s.published ++ [⟨p, k, get_typing_users s p k n⟩] }) := by
  simp [broadcast_typing_update, h]

theorem broadcast_typing_update_keeps_rows (s : TypingState) (p : Uuid) (k : Option Uuid)
    (n : Nat) (h : s.busOk = true) :
    ∃ s', broadcast_typing_update s p k n = .ok ((), s')
      ∧ s'.rows = s.rows ∧ s'.busOk = true := by
  rw [broadcast_typing_update_ok s p k n h]
  exact ⟨_, rfl, rfl, h⟩

theorem start_typing_rows (s : TypingState) (u p : Uuid) (k : Option Uuid) (n : Nat)
    (h : s.busOk = true) :
    ∃ s', start_typing s u p k n = .ok ((), s')
      ∧ s'.rows = (if s.rows.any (fun r => rowKeyEq r u p k) = true then
            s.rows.map (fun r =>
              if rowKeyEq r u p k then { r with last_activity_at := n } else r)
          else s.rows ++ [⟨u, p, k, n, n⟩])
      ∧ s'.busOk = true := by
  simp only [start_typing]
  exact broadcast_typing_update_keeps_rows _ p k n h

theorem stop_typing_rows (s : TypingState) (u p : Uuid) (k : Option Uuid) (n : Nat)
    (h : s.busOk = true) :
    ∃ s', stop_typing s u p k n = .ok ((), s')
      ∧ s'.rows = s.rows.filter (fun r => !rowKeyEq r u p k)
      ∧ s'.busOk = true := by
  simp only [stop_typing]
  exact broadcast_typing_update_keeps_rows _ p k n h

theorem upsert_contains (rows : List TypingRow) (u p : Uuid) (k : Option Uuid) (n : Nat) :
    ∃ r ∈ (if rows.any (fun r => rowKeyEq r u p k) = true then
        rows.map (fun r => if rowKeyEq r u p k then { r with last_activity_at := n } else r)
      else rows ++ [⟨u, p, k, n, n⟩]),
      rowKeyEq r u p k = true := by
  by_cases hany : rows.any (fun r => rowKeyEq r u p k) = true
  · rw [if_pos hany]
    obtain ⟨r0, hr0, hk0⟩ := List.any_eq_true.mp hany
    refine ⟨{ r0 with last_activity_at := n }, ?_, hk0⟩
    have hEq : (if rowKeyEq r0 u p k then { r0 with last_activity_at := n } else r0)
        = { r0 with last_activity_at := n } := by
      rw [if_pos hk0]
    exact hEq ▸ List.mem_map_of_mem _ hr0
  · rw [if_neg hany]
    refine ⟨⟨u, p, k, n, n⟩, List.mem_append_right _ ?_, by simp [rowKeyEq]⟩
    exact List.mem_singleton_self _

/-! ### C4: stop_typing key exactness -/

/-- C4: the deletion key of `stop_typing` treats a missing
parent-comment id as matching only a missing one (`IS NOT DISTINCT
FROM`): stopping with no parent does not remove an indicator started
with a parent and vice versa, and in general a stop removes exactly the
rows whose (user, post, parent) key matches exactly. -/
theorem C4_stop_typing_exact_key (s : TypingState) (u p c : Uuid) (n1 n2 : Nat)
    (h : s.busOk = true) :
    (∃ s1 s2, start_typing s u p (some c) n1 = .ok ((), s1)
      ∧ stop_typing s1 u p none n2 = .ok ((), s2)
      ∧ ∃ r ∈ s2.rows, rowKeyEq r u p (some c) = true)
    ∧ (∃ s3 s4, start_typing s u p none n1 = .ok ((), s3)
      ∧ stop_typing s3 u p (some c) n2 = .ok ((), s4)
      ∧ ∃ r ∈ s4.rows, rowKeyEq r u p none = true)
    ∧ ∀ (t : TypingState) (u2 p2 : Uuid) (k : Option Uuid) (n : Nat), t.busOk = true →
        ∃ t2, stop_typing t u2 p2 k n = .ok ((), t2)
          ∧ ∀ r, r ∈ t2.rows ↔ (r ∈ t.rows ∧ rowKeyEq r u2 p2 k = false) := by
  refine ⟨?_, ?_, ?_⟩
  · obtain ⟨s1, hs1, hrows1, hb1⟩ := start_typing_rows s u p (some c) n1 h
    obtain ⟨s2, hs2, hrows2, _⟩ := stop_typing_rows s1 u p none n2 hb1
    obtain ⟨r, hrmem, hrkey⟩ := upsert_contains s.rows u p (some c) n1
    refine ⟨s1, s2, hs1, hs2, r, ?_, hrkey⟩
    rw [hrows2]
    apply List.mem_filter.mpr
    refine ⟨hrows1 ▸ hrmem, ?_⟩
    have hc := (rowKeyEq_iff r u p (some c)).mp hrkey
    simp [rowKeyEq, hc.1, hc.2.1, hc.2.2]
  · obtain ⟨s3, hs3, hrows3, hb3⟩ := start_typing_rows s u p none n1 h
    obtain ⟨s4, hs4, hrows4, _⟩ := stop_typing_rows s3 u p (some c) n2 hb3
    obtain ⟨r, hrmem, hrkey⟩ := upsert_contains s.rows u p none n1
    refine ⟨s3, s4, hs3, hs4, r, ?_, hrkey⟩
    rw [hrows4]
    apply List.mem_filter.mpr
    refine ⟨hrows3 ▸ hrmem, ?_⟩
    have hc := (rowKeyEq_iff r u p none).mp hrkey
    simp [rowKeyEq, hc.1, hc.2.1, hc.2.2]
  · intro t u2 p2 k n hb
    obtain ⟨t2, ht2, hrows, _⟩ := stop_typing_rows t u2 p2 k n hb
    refine ⟨t2, ht2, ?_⟩
    intro r
    rw [hrows]
    simp [List.mem_filter]

/-- Witness for C4 at an empty typing register. -/
theorem C4_stop_typing_exact_key_witness :
    (∃ s1 s2, start_typing ⟨[], [], [], true⟩ 1 5 (some 9) 0 = .ok ((), s1)
      ∧ stop_typing s1 1 5 none 1 = .ok ((), s2)
      ∧ ∃ r ∈ s2.rows, rowKeyEq r 1 5 (some 9) = true)
    ∧ (∃ s3 s4, start_typing ⟨[], [], [], true⟩ 1 5 none 0 = .ok ((), s3)
      ∧ stop_typing s3 1 5 (some 9) 1 = .ok ((), s4)
      ∧ ∃ r ∈ s4.rows, rowKeyEq r 1 5 none = true)
    ∧ ∀ (t : TypingState) (u2 p2 : Uuid) (k : Option Uuid) (n : Nat), t.busOk = true →
        ∃ t2, stop_typing t u2 p2 k n = .ok ((), t2)
          ∧ ∀ r, r ∈ t2.rows ↔ (r ∈ t.rows ∧ rowKeyEq r u2 p2 k = false) :=
  C4_stop_typing_exact_key ⟨[], [], [], true⟩ 1 5 9 0 1 rfl

/-! ### C10: typing heartbeat is a pure refresh -/

/-- C10: the `typing_heartbeat` path (`update_typing_activity`) creates
no indicator and publishes no broadcast: it returns success, leaves the
broadcasts, users and row count unchanged, is the identity when no row
matches the exact key, keeps every non-matching row as-is, refreshes
only the matching rows' last-activity, and produces no row that does not
come from an existing one with all key fields and the start time
preserved. -/
theorem C10_heartbeat_frame (s : TypingState) (u p : Uuid) (k : Option Uuid) (now : Nat) :
    ∃ s', update_typing_activity s u p k now = .ok ((), s')
      ∧ s'.published = s.published
      ∧ s'.users = s.users
      ∧ s'.busOk = s.busOk
      ∧ s'.rows.length = s.rows.length
      ∧ ((∀ r ∈ s.rows, rowKeyEq r u p k = false) → s' = s)
      ∧ (∀ r ∈ s.rows, rowKeyEq r u p k = false → r ∈ s'.rows)
      ∧ (∀ r ∈ s.rows, rowKeyEq r u p k = true →
          { r with last_activity_at := now } ∈ s'.rows)
      ∧ (∀ r' ∈ s'.rows, ∃ r ∈ s.rows, r'.user_id = r.user_id ∧ r'.post_id = r.post_id
          ∧ r'.parent_comment_id = r.parent_comment_id
          ∧ r'.started_typing_at = r.started_typing_at) := by
  refine ⟨_, rfl, rfl, rfl, rfl, ?_, ?_, ?_, ?_, ?_⟩
  · exact List.length_map _ _
  · intro hall
    have hid : s.rows.map (fun r =>
        if rowKeyEq r u p k then { r with last_activity_at := now } else r) = s.rows := by
      have hpt : ∀ l : List TypingRow, (∀ r ∈ l, rowKeyEq r u p k = false) →
          l.map (fun r =>
            if rowKeyEq r u p k then { r with last_activity_at := now } else r) = l := by
        intro l
        induction l with
        | nil => intro _; rfl
        | cons a as ih =>
          intro hall2
          have ha : rowKeyEq a u p k = false := hall2 a (List.mem_cons_self a as)
          have has : ∀ r ∈ as, rowKeyEq r u p k = false :=
            fun r hr => hall2 r (List.mem_cons_of_mem a hr)
          simp [ha, ih has]
      exact hpt s.rows hall
    cases s
    simp only [update_typing_activity] at hid ⊢
    simp [hid]
  · intro r hr hkey
    have hEq : (if rowKeyEq r u p k then { r with last_activity_at := now } else r) = r := by
      rw [if_neg]
      rw [hkey]
      simp
    exact hEq ▸ List.mem_map_of_mem _ hr
  · intro r hr hkey
    have hEq : (if rowKeyEq r u p k then { r with last_activity_at := now } else r)
        = { r with last_activity_at := now } := by
      rw [if_pos hkey]
    exact hEq ▸ List.mem_map_of_mem _ hr
  · intro r' hr'
    rcases List.mem_map.mp hr' with ⟨r, hr, hEq⟩
    refine ⟨r, hr, ?_⟩
    by_cases hkey : rowKeyEq r u p k = true
    · rw [if_pos hkey] at hEq
      rw [← hEq]
      exact ⟨rfl, rfl, rfl, rfl⟩
    · rw [if_neg hkey] at hEq
      rw [← hEq]
      exact ⟨rfl, rfl, rfl, rfl⟩

/-! ### C5: typing snapshot filter and ordering -/

theorem pairwise_filterMap_of_pairwise {α β : Type} (f : α → Option β)
    (R : α → α → Prop) (S : β → β → Prop)
    (hf : ∀ a a', R a a' → ∀ b, f a = some b → ∀ b', f a' = some b' → S b b') :
    ∀ l : List α, l.Pairwise R → (l.filterMap f).Pairwise S := by
  intro l hl
  induction l with
  | nil => simp
  | cons a as ih =>
    rcases List.pairwise_cons.mp hl with ⟨ha, has⟩
    cases hfa : f a with
    | none => simpa [List.filterMap_cons, hfa] using ih has
    | some b =>
      rw [List.filterMap_cons_some hfa]
      apply List.pairwise_cons.mpr
      refine ⟨?_, ih has⟩
      intro b' hb'
      rcases List.mem_filterMap.mp hb' with ⟨a', ha', hfa'⟩
      exact hf a a' (ha a' ha') b hfa b' hfa'

/-- A typing register with no indicators and three known users, used for
the A-B-C snapshot scenario. -/
def typingScenarioStart : TypingState :=
  ⟨[], [(1, ("a", none)), (2, ("b", none)), (3, ("c", none))], [], true⟩

/-- The successor state of a `start_typing` call, keeping the prior
state when the bus is down (used to chain scenario steps). -/
def startStep (s : TypingState) (u p : Uuid) (k : Option Uuid) (n : Nat) : TypingState :=
  match start_typing s u p k n with
  | .ok (_, s') => s'
  | .error _ => s

/-- C5: `get_typing_users` returns exactly the indicators of the exact
(post, parent) key whose last activity is within the last 30 seconds
(joined with the users table), ordered by start time ascending; starting
typing for users 1, 2, 3 in that order yields exactly [1, 2, 3] while
all three are active. -/
theorem C5_typing_snapshot (s : TypingState) (post_id : Uuid) (parent : Option Uuid)
    (now : Nat) :
    (get_typing_users s post_id parent now).Sorted startedUserLE
      ∧ (∀ tu, tu ∈ get_typing_users s post_id parent now
          ↔ ∃ r ∈ s.rows, typingQueryMatch r post_id parent now = true
              ∧ s.users.lookup r.user_id = some (tu.username, tu.avatar_url)
              ∧ tu.user_id = r.user_id ∧ tu.started_typing_at = r.started_typing_at)
      ∧ (get_typing_users (startStep (startStep (startStep typingScenarioStart
            1 5 none 0) 2 5 none 1) 3 5 none 2) 5 none 3).map TypingUser.user_id
          = [1, 2, 3] := by
  refine ⟨?_, ?_, by decide⟩
  · unfold get_typing_users
    apply pairwise_filterMap_of_pairwise _ startedLE startedUserLE
    · intro a a' hR b hb b' hb'
      cases hla : s.users.lookup a.user_id with
      | none => rw [hla] at hb; exact Option.noConfusion hb
      | some ui =>
        cases hla' : s.users.lookup a'.user_id with
        | none => rw [hla'] at hb'; exact Option.noConfusion hb'
        | some ui' =>
          rw [hla] at hb
          rw [hla'] at hb'
          have hb2 := Option.some.inj hb
          have hb2' := Option.some.inj hb'
          rw [← hb2, ← hb2']
          exact hR
    · exact List.sorted_insertionSort startedLE _
  · intro tu
    unfold get_typing_users
    rw [List.mem_filterMap]
    constructor
    · rintro ⟨r, hr, hf⟩
      have hr2 : r ∈ s.rows.filter (fun r => typingQueryMatch r post_id parent now) :=
        (List.perm_insertionSort startedLE _).mem_iff.mp hr
      rcases List.mem_filter.mp hr2 with ⟨hrs, hmatch⟩
      cases hlu : s.users.lookup r.user_id with
      | none =>
        rw [hlu] at hf
        exact Option.noConfusion hf
      | some ui =>
        rw [hlu] at hf
        have hf2 := Option.some.inj hf
        refine ⟨r, hrs, hmatch, ?_, ?_, ?_⟩
        · rw [hlu, ← hf2]
        · rw [← hf2]
        · rw [← hf2]
    · rintro ⟨r, hrs, hmatch, hlu, huid, hstart⟩
      refine ⟨r, ?_, ?_⟩
      · exact (List.perm_insertionSort startedLE _).mem_iff.mpr
          (List.mem_filter.mpr ⟨hrs, hmatch⟩)
      · rw [hlu]
        show some (⟨r.user_id, tu.username, tu.avatar_url, r.started_typing_at⟩ : TypingUser)
          = some tu
        rw [← huid, ← hstart]

end RedditClone
